import Mathlib

/-!
Exam security monitor: embedding and verification.

Shallow embedding of `CodeOFMasterTester.cpp` (the nine detectors, the
aggregation of their results and the refresh loop) and of
`CodeOfScreenshare.cpp` (the output-duplication probe and its refresh loop).

The operating system is an explicit value: every query a detector makes
(`GetSystemMetrics`, the tool-help process snapshot, `__cpuid`,
`EnumDisplayDevicesW`, `GetTickCount`, `GetLastInputInfo`, the DXGI calls) is a
field of a record, and a detector is a function of that record.

Wide strings and narrow strings are both `String`; a `wchar_t` is a `Char`.
Machine integers are `Nat` reduced modulo `2 ^ 32` where the source uses
`DWORD` arithmetic.
-/

namespace Monitor

/-! ## Result model -/

/-- The `CheckResult` struct: `risk = true` is RISK, `false` is OK. -/
structure CheckResult where
  name : String
  risk : Bool
  detail : String
  deriving DecidableEq, Repr

/-! ## The observable system state -/

/-- Everything the detectors of the master monitor read from the machine.

* `remoteSession` : `GetSystemMetrics(SM_REMOTESESSION)`;
* `snapshot` : `CreateToolhelp32Snapshot`; `none` is `INVALID_HANDLE_VALUE`,
  `some es` lists the `szExeFile` of the entries walked by
  `Process32FirstW` / `Process32NextW` (an empty list: `Process32FirstW` fails);
* `cpuidEcx` : register ECX of CPUID leaf 1;
* `displayDevices` : the `DeviceString` of the devices `EnumDisplayDevicesW`
  yields for indices 0, 1, 2, ... until it fails;
* `monitors` : `GetSystemMetrics(SM_CMONITORS)`;
* `tickCount` : `GetTickCount()`;
* `lastInput` : `GetLastInputInfo`; `some t` stores `t` in `dwTime`, `none` is a
  failed call, which leaves `dwTime` as initialised.

The state is the same for every query of one evaluation cycle: every call of
`IsProcessRunning` takes its own snapshot, and all of them see `snapshot`. -/
structure SystemState where
  remoteSession : Int
  snapshot : Option (List String)
  cpuidEcx : Nat
  displayDevices : List String
  monitors : Int
  tickCount : Nat
  lastInput : Option Nat

/-! ## Process detection -/

/-- Lower-casing of one wide character in the default "C" locale: only the
letters `A`-`Z` change. -/
def towlower (c : Char) : Char := c.toLower

/-- The CRT `_wcsicmp`: lexicographic comparison of the two strings after
lower-casing each character; `0` means equal. -/
def wcsicmp : List Char → List Char → Int
  | [], [] => 0
  | [], _ :: _ => -1
  | _ :: _, [] => 1
  | a :: as, b :: bs =>
    if towlower a = towlower b then wcsicmp as bs
    else ((towlower a).toNat : Int) - ((towlower b).toNat : Int)

/-- The `do { ... } while (Process32NextW(...))` loop of `IsProcessRunning`:
`entry` is the current entry, `rest` the entries `Process32NextW` still yields. -/
def scanEntries (name : String) (entry : String) : List String → Bool
  | [] => if wcsicmp entry.data name.data == 0 then true else false
  | next :: rest =>
    if wcsicmp entry.data name.data == 0 then true
    else scanEntries name next rest

/-- Function `IsProcessRunning(name)`: `false` when the snapshot cannot be taken,
otherwise whether some entry compares equal to `name` ignoring case. -/
def IsProcessRunning (snapshot : Option (List String)) (name : String) : Bool :=
  match snapshot with
  | none => false
  | some [] => false
  | some (first :: rest) => scanEntries name first rest

/-- Function `AnyProcessRunning(names, which)`: the returned pair is the `bool` result
and the final content of the by-reference parameter `which`, which is
assigned only on a hit. -/
def AnyProcessRunning (snapshot : Option (List String)) :
    List String → String → Bool × String
  | [], which => (false, which)
  | n :: names, which =>
    if IsProcessRunning snapshot n then (true, n)
    else AnyProcessRunning snapshot names which

/-- The conversion `std::string(w.begin(), w.end())`: every wide character is
truncated to one byte. -/
def narrow (w : String) : String :=
  String.mk (w.data.map fun c => Char.ofNat (c.toNat % 256))

/-! ## Detectors -/

/-- Detector `CheckRdp`. -/
def CheckRdp (s : SystemState) : CheckResult :=
  let remote := s.remoteSession != 0
  { name := "RDP (Remote Desktop Session)"
    risk := remote
    detail := if remote then "Current session is a remote desktop session."
              else "Local console session." }

/-- The candidate list `remoteNames` of `CheckRemoteTools`. -/
def remoteNames : List String :=
  ["AnyDesk.exe", "ad_svc.exe",
   "TeamViewer.exe", "TeamViewer_Service.exe",
   "winvnc.exe", "tvnserver.exe", "uvnc_service.exe", "tightvnc.exe", "vncserver.exe",
   "remoting_host.exe",
   "QuickAssist.exe", "RemoteHelp.exe",
   "RustDesk.exe", "rustdesk.exe",
   "ZohoAssist.exe", "ZohoAssist10.exe",
   "Splashtop.exe", "SRServer.exe",
   "DWRCS.exe", "DWRCST.exe",
   "rutserv.exe", "rutview.exe"]

/-- Detector `CheckRemoteTools`. -/
def CheckRemoteTools (s : SystemState) : CheckResult :=
  let (found, hit) := AnyProcessRunning s.snapshot remoteNames ""
  { name := "Remote Access Tools (AnyDesk/TeamViewer/VNC/etc.)"
    risk := found
    detail := if found then narrow ("Detected process: " ++ hit)
              else "No known remote access processes detected." }

/-- Function `IsHypervisorPresent`: bit 31 of ECX of CPUID leaf 1. -/
def IsHypervisorPresent (s : SystemState) : Bool :=
  (s.cpuidEcx % 2 ^ 32) / 2 ^ 31 % 2 != 0

/-- The candidate list `vmNames` of `CheckVirtualMachine`. -/
def vmNames : List String :=
  ["vmtoolsd.exe", "vmware.exe", "vmware-vmx.exe",
   "vboxservice.exe", "vboxtray.exe",
   "qemu-ga.exe", "qemu-system-x86_64.exe",
   "vmsrvc.exe", "vpcmap.exe",
   "prl_tools.exe"]

/-- Detector `CheckVirtualMachine`. -/
def CheckVirtualMachine (s : SystemState) : CheckResult :=
  let hv := IsHypervisorPresent s
  let (vmProc, vmHit) := AnyProcessRunning s.snapshot vmNames ""
  { name := "Virtual Machine / Sandbox Environment"
    risk := hv || vmProc
    detail :=
      if hv && vmProc then narrow ("Hypervisor bit set; VM process detected: " ++ vmHit)
      else if hv then "CPU hypervisor bit is set (running inside a VM)."
      else if vmProc then narrow ("Detected VM-related process: " ++ vmHit)
      else "No obvious VM indicators detected." }

/-- The candidate list `recNames` of `CheckScreenRecorders`. -/
def recNames : List String :=
  ["obs64.exe", "obs32.exe",
   "Streamlabs OBS.exe", "slobs.exe",
   "GameBar.exe", "GameBarFTServer.exe", "GamebarPresenceWriter.exe",
   "NvidiaShare.exe", "nvsphelper64.exe",
   "RadeonSoftware.exe", "Radeonsettings.exe",
   "bandicam.exe",
   "camtasiaStudio.exe", "camtasia.exe",
   "XSplit.Core.exe", "XSplit.Gamecaster.exe",
   "flashbackrecorder.exe",
   "ScreenRecorder.exe"]

/-- Detector `CheckScreenRecorders`. -/
def CheckScreenRecorders (s : SystemState) : CheckResult :=
  let (found, hit) := AnyProcessRunning s.snapshot recNames ""
  { name := "Screen Recording / Streaming Software"
    risk := found
    detail := if found then narrow ("Detected process: " ++ hit)
              else "No known screen recorders detected." }

/-- The candidate list `macroNames` of `CheckMacroTools`. -/
def macroNames : List String :=
  ["AutoHotkey.exe", "AutoHotkeyU64.exe", "AutoHotkeyU32.exe",
   "MacroRecorder.exe",
   "TinyTask.exe",
   "PuloverMacroCreator.exe"]

/-- Detector `CheckMacroTools`. -/
def CheckMacroTools (s : SystemState) : CheckResult :=
  let (found, hit) := AnyProcessRunning s.snapshot macroNames ""
  { name := "Macro / Automation Tools (AutoHotkey, etc.)"
    risk := found
    detail := if found then narrow ("Detected process: " ++ hit)
              else "No common macro tools detected." }

/-- The candidate list `vpnNames` of `CheckVpn`. -/
def vpnNames : List String :=
  ["openvpn.exe",
   "NordVPN.exe", "NordVPN.NetworkService.exe",
   "ProtonVPN.exe",
   "expressvpn.exe",
   "pia-client.exe",
   "pia-nw.exe",
   "wireguard.exe",
   "CiscoAnyConnect.exe", "vpnui.exe", "vpnagent.exe",
   "FortiClient.exe",
   "GlobalProtect.exe",
   "PulseSecure.exe",
   "SoftEtherVPN.exe"]

/-- Detector `CheckVpn`. -/
def CheckVpn (s : SystemState) : CheckResult :=
  let (found, hit) := AnyProcessRunning s.snapshot vpnNames ""
  { name := "VPN Software Running"
    risk := found
    detail := if found then narrow ("Detected process: " ++ hit)
              else "No common VPN processes detected." }

/-- The test `std::wstring::find(marker) != npos`: `marker` occurs in `dev`. -/
def contains : List Char → List Char → Bool
  | [], marker => marker.isEmpty
  | c :: cs, marker => marker.isPrefixOf (c :: cs) || contains cs marker

/-- Function `HasVirtualMonitor`: the `while (EnumDisplayDevicesW(NULL, i, &dd, 0))` loop
over the device strings, returning at the first one carrying a marker. -/
def HasVirtualMonitor : List String → Bool
  | [] => false
  | dev :: rest =>
    if contains dev.data "Virtual".data ||
       contains dev.data "RDP".data ||
       contains dev.data "Mirr".data ||
       contains dev.data "Splashtop".data ||
       contains dev.data "DISPLAYLINK".data then true
    else HasVirtualMonitor rest

/-- Detector `CheckVirtualDisplays`. -/
def CheckVirtualDisplays (s : SystemState) : CheckResult :=
  let virt := HasVirtualMonitor s.displayDevices
  { name := "Virtual / Remote / Mirror Display Drivers"
    risk := virt
    detail := if virt then "Detected virtual or mirror display device."
              else "Only physical displays detected." }

/-- The decimal rendering `std::to_string` of an `int`. -/
def intToString (n : Int) : String :=
  if n < 0 then "-" ++ toString n.natAbs else toString n.natAbs

/-- Detector `CheckMultipleMonitors`. -/
def CheckMultipleMonitors (s : SystemState) : CheckResult :=
  let monitors := s.monitors
  { name := "Multiple Monitors Connected"
    risk := decide (monitors > 1)
    detail := if monitors > 1 then "Active monitors: " ++ intToString monitors
              else "Single monitor in use." }

/-- The `DWORD` subtraction `GetTickCount() - li.dwTime`, wrapping modulo
`2 ^ 32`. -/
def dwordSub (a b : Nat) : Nat :=
  (a % 2 ^ 32 + (2 ^ 32 - b % 2 ^ 32)) % 2 ^ 32

/-- The value of `li.dwTime` after `GetLastInputInfo(&li)`: the struct is
initialised as `LASTINPUTINFO li{ sizeof(li) }`, so `dwTime` is `0` unless the
call stores a tick in it. The return value of the call is not inspected. -/
def lastInputTime (s : SystemState) : Nat :=
  match s.lastInput with
  | some t => t
  | none => 0

/-- The local `idleMs` of `CheckRemoteInputHeuristic`. -/
def idleMs (s : SystemState) : Nat :=
  dwordSub s.tickCount (lastInputTime s)

/-- Detector `CheckRemoteInputHeuristic`. -/
def CheckRemoteInputHeuristic (s : SystemState) : CheckResult :=
  let idle := idleMs s
  let suspicious := decide (idle > 20000)
  { name := "Suspicious Idle / Remote Input Pattern"
    risk := suspicious
    detail := "System idle for ~" ++ toString (idle / 1000) ++ " seconds." }

/-! ## One evaluation cycle of `main` -/

/-- The body of `main` from `std::vector<CheckResult> results;` to the last
`push_back`: nine detector calls, each appended to the vector. -/
def collectResults (s : SystemState) : List CheckResult :=
  let results : List CheckResult := []
  let results := results ++ [CheckRdp s]
  let results := results ++ [CheckRemoteTools s]
  let results := results ++ [CheckVirtualMachine s]
  let results := results ++ [CheckScreenRecorders s]
  let results := results ++ [CheckMacroTools s]
  let results := results ++ [CheckVpn s]
  let results := results ++ [CheckVirtualDisplays s]
  let results := results ++ [CheckMultipleMonitors s]
  let results := results ++ [CheckRemoteInputHeuristic s]
  results

/-- The loop `for (const auto& r : results) { ...; if (r.risk) anyRisk = true; }`
started from the given value of `anyRisk`. -/
def anyRiskLoop : List CheckResult → Bool → Bool
  | [], anyRisk => anyRisk
  | r :: rest, anyRisk => anyRiskLoop rest (if r.risk then true else anyRisk)

/-- The verdict `anyRisk` of `main`: the loop run from `anyRisk = false`. -/
def anyRisk (results : List CheckResult) : Bool :=
  anyRiskLoop results false

/-! ## The refresh loop of `main` (both programs) -/

/-- Where control is in `main`: at the top of `while (true)` about to run an
evaluation cycle, at the key test of iteration `i` of the wait loop, inside
`Sleep(100)` of iteration `i`, or returned from `main`. -/
inductive Phase where
  | cycle
  | poll (i : Nat)
  | sleep (i : Nat)
  | exited
  deriving DecidableEq, Repr

/-- Control state of `main`: the phase, the number of evaluation cycles started
so far, the number of completed `Sleep(100)` calls, and the number of actions
performed so far (the instant at which the next action happens). -/
structure Sched where
  phase : Phase
  cycles : Nat
  sleeps : Nat
  clock : Nat
  deriving DecidableEq, Repr

/-- The test `GetAsyncKeyState('Q') & 0x8000` on the 16-bit value returned by
`GetAsyncKeyState`. -/
def quitRequested (keyState : Nat) : Bool :=
  (keyState % 2 ^ 16) / 2 ^ 15 % 2 != 0

/-- The loop condition `i < polls` of the wait loop: the next key test, or,
when the loop is over, the top of `while (true)`. -/
def loopTest (polls i : Nat) : Phase :=
  if i < polls then Phase.poll i else Phase.cycle

/-- One action of `main`. `polls` is the bound of the wait loop and `key t` the
value `GetAsyncKeyState('Q')` returns at instant `t`.

* `cycle`: clear the screen, evaluate, print; then enter the wait loop at `i = 0`;
* `poll i`: read the key; return from `main` when Q is down, else sleep;
* `sleep i`: `Sleep(100)` completes, `i++`, loop condition;
* `exited`: nothing happens any more. -/
def step (polls : Nat) (key : Nat → Nat) (st : Sched) : Sched :=
  match st.phase with
  | Phase.cycle =>
    { phase := loopTest polls 0, cycles := st.cycles + 1, sleeps := st.sleeps,
      clock := st.clock + 1 }
  | Phase.poll i =>
    if quitRequested (key st.clock) then
      { phase := Phase.exited, cycles := st.cycles, sleeps := st.sleeps,
        clock := st.clock + 1 }
    else
      { phase := Phase.sleep i, cycles := st.cycles, sleeps := st.sleeps,
        clock := st.clock + 1 }
  | Phase.sleep i =>
    { phase := loopTest polls (i + 1), cycles := st.cycles, sleeps := st.sleeps + 1,
      clock := st.clock + 1 }
  | Phase.exited => st

/-- The state after `k` actions. -/
def run (polls : Nat) (key : Nat → Nat) : Nat → Sched → Sched
  | 0, st => st
  | k + 1, st => run polls key k (step polls key st)

/-- Bound of the wait loop in `CodeOFMasterTester.cpp`. -/
def masterPolls : Nat := 50

/-- Bound of the wait loop in `CodeOfScreenshare.cpp`. -/
def capturePolls : Nat := 10

/-! ## The output-duplication probe of `CodeOfScreenshare.cpp` -/

/-- The COM objects the probe can obtain. -/
inductive Resource where
  | factory
  | adapter
  | device
  | context
  | output
  | output1
  | duplication
  deriving DecidableEq, Repr

/-- The `FAILED(hr)` test: the sign bit of the 32-bit `HRESULT` is set. -/
def FAILED (hr : Nat) : Bool :=
  decide (hr % 2 ^ 32 ≥ 2 ^ 31)

/-- The constant `DXGI_ERROR_ACCESS_DENIED`. -/
def DXGI_ERROR_ACCESS_DENIED : Nat := 0x887A002B

/-- Outcomes of the graphics calls made by the probe, in call order.

* `createFactory` : the `HRESULT` of `CreateDXGIFactory1`;
* `enumAdapters` : whether `EnumAdapters1(0, &adapter)` stores an adapter;
* `createDevice` : the `HRESULT` of `D3D11CreateDevice`;
* `enumOutputs` : whether `EnumOutputs(0, &output)` stores an output;
* `queryInterface` : whether `QueryInterface` stores an `IDXGIOutput1`;
* `duplicateOutput` : the `HRESULT` of `DuplicateOutput`.

A call that returns a non-failed `HRESULT` stores the object it creates. -/
structure GraphicsQueries where
  createFactory : Nat
  enumAdapters : Bool
  createDevice : Nat
  enumOutputs : Bool
  queryInterface : Bool
  duplicateOutput : Nat

/-- How a run of the probe ends: `return b;`, or a member call through a
pointer that is still `nullptr`. -/
inductive ProbeExit where
  | returned (b : Bool)
  | nullDereference
  deriving DecidableEq, Repr

/-- Function `IsWindowBeingCaptured`, with the COM references held by the process
threaded through: `held` before the call, the second component after it. Every
object a call stores is appended; the source has no `Release` call. -/
def IsWindowBeingCaptured (q : GraphicsQueries) (held : List Resource) :
    ProbeExit × List Resource :=
  if FAILED q.createFactory then (ProbeExit.returned false, held)
  else
    let held := held ++ [Resource.factory]
    let adapter := q.enumAdapters
    let held := if adapter then held ++ [Resource.adapter] else held
    let hr := q.createDevice
    let held := if FAILED hr then held else held ++ [Resource.device, Resource.context]
    if FAILED hr then (ProbeExit.returned false, held)
    else if !adapter then (ProbeExit.nullDereference, held)
    else
      let output := q.enumOutputs
      let held := if output then held ++ [Resource.output] else held
      if !output then (ProbeExit.nullDereference, held)
      else
        let output1 := q.queryInterface
        let held := if output1 then held ++ [Resource.output1] else held
        if !output1 then (ProbeExit.nullDereference, held)
        else
          let hr := q.duplicateOutput
          let held := if FAILED hr then held else held ++ [Resource.duplication]
          if hr % 2 ^ 32 == DXGI_ERROR_ACCESS_DENIED then (ProbeExit.returned true, held)
          else (ProbeExit.returned false, held)

/-! ## Specification-side notions -/

/-- Specification-side notion, not taken from the source: two names are the same
under case-insensitive exact comparison when they agree character by character
after lower-casing. -/
def SameNameIgnoringCase (p n : String) : Prop :=
  p.data.map Char.toLower = n.data.map Char.toLower

instance (p n : String) : Decidable (SameNameIgnoringCase p n) := by
  unfold SameNameIgnoringCase
  infer_instance

/-- Specification-side notion: candidate `n` is the first entry of `names`, in
list order, that is the name of some process of `table`. -/
def FirstMatch (names table : List String) (n : String) : Prop :=
  ∃ before after, names = before ++ n :: after ∧
    (∀ m ∈ before, ∀ p ∈ table, ¬ SameNameIgnoringCase p m) ∧
    ∃ p ∈ table, SameNameIgnoringCase p n

/-- Specification-side notion: no candidate of `names` is the name of a process
of `table`. -/
def NoMatch (names table : List String) : Prop :=
  ∀ n ∈ names, ∀ p ∈ table, ¬ SameNameIgnoringCase p n

instance (names table : List String) : Decidable (NoMatch names table) := by
  unfold NoMatch
  infer_instance

/-- Specification-side notion: the snapshot succeeds and some VM tooling
candidate is the name of a running process. -/
def VmProcessRunning (s : SystemState) : Prop :=
  match s.snapshot with
  | none => False
  | some table => ∃ n ∈ vmNames, ∃ p ∈ table, SameNameIgnoringCase p n

instance (s : SystemState) : Decidable (VmProcessRunning s) := by
  unfold VmProcessRunning
  cases s.snapshot <;> infer_instance

/-- Specification-side notion, not taken from the body of the probe: the objects
obtained during one probe, in call order. An object is obtained when the call
that creates it is reached and stores it:

* `CreateDXGIFactory1` is always reached;
* `EnumAdapters1` and `D3D11CreateDevice` are reached when the factory exists;
* `EnumOutputs` is reached when the device exists and the adapter is not null;
* `QueryInterface` is reached when moreover the output is not null;
* `DuplicateOutput` is reached when moreover the `IDXGIOutput1` is not null. -/
def acquiredObjects (q : GraphicsQueries) : List Resource :=
  let factoryOk := !FAILED q.createFactory
  let deviceOk := factoryOk && !FAILED q.createDevice
  let outputsReached := deviceOk && q.enumAdapters
  let queryReached := outputsReached && q.enumOutputs
  let duplicateReached := queryReached && q.queryInterface
  (if factoryOk then [Resource.factory] else []) ++
  (if factoryOk && q.enumAdapters then [Resource.adapter] else []) ++
  (if deviceOk then [Resource.device, Resource.context] else []) ++
  (if queryReached then [Resource.output] else []) ++
  (if duplicateReached then [Resource.output1] else []) ++
  (if duplicateReached && !FAILED q.duplicateOutput then [Resource.duplication] else [])

/-! ## Concrete inputs -/

/-- A system state in which TeamViewer runs, spelled in upper case, next to
unrelated processes. -/
def teamViewerState : SystemState :=
  { remoteSession := 0
    snapshot := some ["explorer.exe", "TEAMVIEWER.EXE", "chrome.exe"]
    cpuidEcx := 0
    displayDevices := ["Generic PnP Monitor"]
    monitors := 1
    tickCount := 30000
    lastInput := some 5000 }

/-- A machine whose CPU reports the hypervisor bit and on which no VM tooling
process runs. -/
def hypervisorOnlyState : SystemState :=
  { remoteSession := 0
    snapshot := some ["explorer.exe"]
    cpuidEcx := 0x80000000
    displayDevices := ["Generic PnP Monitor"]
    monitors := 1
    tickCount := 30000
    lastInput := some 29000 }

/-- A machine on which the process snapshot cannot be taken. -/
def snapshotFailedState : SystemState :=
  { remoteSession := 0
    snapshot := none
    cpuidEcx := 0
    displayDevices := ["Generic PnP Monitor"]
    monitors := 1
    tickCount := 30000
    lastInput := some 29000 }

/-- The same machine with a snapshot that succeeds and lists no process. -/
def snapshotEmptyState : SystemState :=
  { remoteSession := 0
    snapshot := some []
    cpuidEcx := 0
    displayDevices := ["Generic PnP Monitor"]
    monitors := 1
    tickCount := 30000
    lastInput := some 29000 }

/-- A machine, up for 30 seconds, on which `GetLastInputInfo` fails. -/
def lastInputFailedState : SystemState :=
  { remoteSession := 0
    snapshot := some ["explorer.exe"]
    cpuidEcx := 0
    displayDevices := ["Generic PnP Monitor"]
    monitors := 1
    tickCount := 30000
    lastInput := none }

/-- The key state with Q held down at every instant. -/
def qHeld : Nat → Nat := fun _ => 0x8000

/-- The key state with Q up before instant 100 and held down from then on. -/
def qLate : Nat → Nat := fun t => if t < 100 then 0 else 0x8000

/-- The state in which `main` starts: at the top of `while (true)`. -/
def initialSched : Sched :=
  { phase := Phase.cycle, cycles := 0, sleeps := 0, clock := 0 }

/-- The master monitor inside the last `Sleep(100)` of its first wait. -/
def lastSleepState : Sched :=
  { phase := Phase.sleep 49, cycles := 1, sleeps := 49, clock := 100 }

/-- The master monitor inside the fourth `Sleep(100)` of its first wait. -/
def midSleepState : Sched :=
  { phase := Phase.sleep 3, cycles := 1, sleeps := 3, clock := 8 }

/-- Graphics outcomes in which the adapter has no output attached: factory,
adapter and device are obtained, `EnumOutputs(0, ...)` stores nothing. -/
def noOutputQueries : GraphicsQueries :=
  { createFactory := 0
    enumAdapters := true
    createDevice := 0
    enumOutputs := false
    queryInterface := false
    duplicateOutput := 0x887A0002 }

/-- Graphics outcomes in which every call but the last succeeds and
`DuplicateOutput` is refused with `DXGI_ERROR_ACCESS_DENIED`. -/
def accessDeniedQueries : GraphicsQueries :=
  { createFactory := 0
    enumAdapters := true
    createDevice := 0
    enumOutputs := true
    queryInterface := true
    duplicateOutput := 0x887A002B }

/-- Graphics outcomes in which every call succeeds (`S_OK`). -/
def allSucceedQueries : GraphicsQueries :=
  { createFactory := 0
    enumAdapters := true
    createDevice := 0
    enumOutputs := true
    queryInterface := true
    duplicateOutput := 0 }

/-! ## Lemmas on the process search -/

theorem wcsicmp_eq_zero_iff (a b : List Char) :
    wcsicmp a b = 0 ↔ a.map Char.toLower = b.map Char.toLower := by
  induction a generalizing b with
  | nil => cases b <;> simp [wcsicmp]
  | cons x xs ih =>
    cases b with
    | nil => simp [wcsicmp]
    | cons y ys =>
      simp only [wcsicmp, towlower, List.map_cons, List.cons.injEq]
      by_cases hxy : x.toLower = y.toLower
      · simp [hxy, ih]
      · have hne : x.toLower.toNat ≠ y.toLower.toNat := by
          intro h
          apply hxy
          apply Char.ext
          apply UInt32.ext
          simpa [Char.toNat, UInt32.toNat] using h
        simp only [hxy, if_false, false_and, iff_false]
        omega

theorem scanEntries_iff (name entry : String) (rest : List String) :
    scanEntries name entry rest = true ↔
      ∃ p ∈ entry :: rest, SameNameIgnoringCase p name := by
  induction rest generalizing entry with
  | nil =>
    simp [scanEntries, SameNameIgnoringCase, wcsicmp_eq_zero_iff]
  | cons next rest ih =>
    simp only [scanEntries, beq_iff_eq, wcsicmp_eq_zero_iff]
    by_cases h : entry.data.map Char.toLower = name.data.map Char.toLower
    · simp [h, SameNameIgnoringCase]
    · simp only [h, if_false, ih, List.mem_cons, exists_eq_or_imp, SameNameIgnoringCase,
        false_or]

theorem IsProcessRunning_iff (table : List String) (name : String) :
    IsProcessRunning (some table) name = true ↔
      ∃ p ∈ table, SameNameIgnoringCase p name := by
  cases table with
  | nil => simp [IsProcessRunning]
  | cons first rest => simpa [IsProcessRunning] using scanEntries_iff name first rest

theorem AnyProcessRunning_of_none_running (snapshot : Option (List String))
    (names : List String) (which : String)
    (h : ∀ n ∈ names, IsProcessRunning snapshot n = false) :
    AnyProcessRunning snapshot names which = (false, which) := by
  induction names with
  | nil => rfl
  | cons n names ih =>
    have hn : IsProcessRunning snapshot n = false := h n (List.mem_cons_self _ _)
    simp only [AnyProcessRunning, hn]
    exact ih (fun m hm => h m (List.mem_cons_of_mem _ hm))

theorem AnyProcessRunning_first (snapshot : Option (List String))
    (before after : List String) (n which : String)
    (hb : ∀ m ∈ before, IsProcessRunning snapshot m = false)
    (hn : IsProcessRunning snapshot n = true) :
    AnyProcessRunning snapshot (before ++ n :: after) which = (true, n) := by
  induction before with
  | nil => simp [AnyProcessRunning, hn]
  | cons m before ih =>
    have hm : IsProcessRunning snapshot m = false := hb m (List.mem_cons_self _ _)
    simp only [List.cons_append, AnyProcessRunning, hm]
    exact ih (fun k hk => hb k (List.mem_cons_of_mem _ hk))

theorem exists_firstMatch (names table : List String)
    (h : ∃ n ∈ names, ∃ p ∈ table, SameNameIgnoringCase p n) :
    ∃ n, FirstMatch names table n := by
  induction names with
  | nil => obtain ⟨n, hn, _⟩ := h; simp at hn
  | cons m names ih =>
    by_cases hm : ∃ p ∈ table, SameNameIgnoringCase p m
    · exact ⟨m, [], names, rfl, by simp, hm⟩
    · have h2 : ∃ n ∈ names, ∃ p ∈ table, SameNameIgnoringCase p n := by
        obtain ⟨n, hn, hp⟩ := h
        rcases List.mem_cons.mp hn with rfl | hn
        · exact absurd hp hm
        · exact ⟨n, hn, hp⟩
      obtain ⟨n, before, after, hsplit, hb, hp⟩ := ih h2
      refine ⟨n, m :: before, after, by simp [hsplit], ?_, hp⟩
      intro k hk p hp2
      rcases List.mem_cons.mp hk with rfl | hk
      · exact fun hs => hm ⟨p, hp2, hs⟩
      · exact hb k hk p hp2

theorem FirstMatch.mem {names table : List String} {n : String}
    (h : FirstMatch names table n) : n ∈ names := by
  obtain ⟨before, after, hsplit, _, _⟩ := h
  simp [hsplit]

theorem AnyProcessRunning_of_firstMatch (names table : List String) (n which : String)
    (h : FirstMatch names table n) :
    AnyProcessRunning (some table) names which = (true, n) := by
  obtain ⟨before, after, hsplit, hb, hp⟩ := h
  subst hsplit
  apply AnyProcessRunning_first
  · intro m hm
    rw [Bool.eq_false_iff]
    intro hrun
    obtain ⟨p, hp1, hp2⟩ := (IsProcessRunning_iff table m).mp hrun
    exact hb m hm p hp1 hp2
  · exact (IsProcessRunning_iff table n).mpr hp

theorem AnyProcessRunning_of_noMatch (names table : List String) (which : String)
    (h : NoMatch names table) :
    AnyProcessRunning (some table) names which = (false, which) := by
  apply AnyProcessRunning_of_none_running
  intro n hn
  rw [Bool.eq_false_iff]
  intro hrun
  obtain ⟨p, hp1, hp2⟩ := (IsProcessRunning_iff table n).mp hrun
  exact h n hn p hp1 hp2

theorem AnyProcessRunning_snapshot_failed (names : List String) (which : String) :
    AnyProcessRunning none names which = (false, which) :=
  AnyProcessRunning_of_none_running none names which (fun _ _ => rfl)

/-! ## Lemmas on the detail strings -/

theorem narrow_remoteNames :
    ∀ n ∈ remoteNames, narrow ("Detected process: " ++ n) = "Detected process: " ++ n := by
  decide

theorem narrow_recNames :
    ∀ n ∈ recNames, narrow ("Detected process: " ++ n) = "Detected process: " ++ n := by
  decide

theorem narrow_macroNames :
    ∀ n ∈ macroNames, narrow ("Detected process: " ++ n) = "Detected process: " ++ n := by
  decide

theorem narrow_vpnNames :
    ∀ n ∈ vpnNames, narrow ("Detected process: " ++ n) = "Detected process: " ++ n := by
  decide

theorem narrow_vmNames :
    ∀ n ∈ vmNames,
      narrow ("Hypervisor bit set; VM process detected: " ++ n) =
          "Hypervisor bit set; VM process detected: " ++ n ∧
      narrow ("Detected VM-related process: " ++ n) = "Detected VM-related process: " ++ n := by
  decide

theorem vm_details_distinct :
    ∀ n ∈ vmNames, ∀ m ∈ vmNames,
      "Hypervisor bit set; VM process detected: " ++ n ≠
          "CPU hypervisor bit is set (running inside a VM)." ∧
      "Hypervisor bit set; VM process detected: " ++ n ≠ "Detected VM-related process: " ++ m ∧
      "Hypervisor bit set; VM process detected: " ++ n ≠ "No obvious VM indicators detected." ∧
      "Detected VM-related process: " ++ m ≠
          "CPU hypervisor bit is set (running inside a VM)." ∧
      "Detected VM-related process: " ++ m ≠ "No obvious VM indicators detected." := by
  decide

/-! ## Lemmas on the aggregation loop -/

theorem anyRiskLoop_eq (results : List CheckResult) (acc : Bool) :
    anyRiskLoop results acc = (acc || results.any (fun r => r.risk)) := by
  induction results generalizing acc with
  | nil => simp [anyRiskLoop]
  | cons r rest ih =>
    simp only [anyRiskLoop, ih, List.any_cons]
    cases r.risk <;> cases acc <;> simp

/-! ## Aggregation and evaluation order -/

/-- Claim C1: for every sequence of detector results, the verdict `anyRisk`
computed by the loop of `main` is true exactly when some result of the sequence
has `risk = true`. -/
theorem anyRisk_iff_exists_risk (results : List CheckResult) :
    anyRisk results = true ↔ ∃ r ∈ results, r.risk = true := by
  simp [anyRisk, anyRiskLoop_eq]

/-- Claim C2: for every system state, one evaluation cycle yields nine results,
the i-th being the result of the i-th detector in the order RDP, remote tools,
virtual machine, screen recorders, macro tools, VPN, virtual displays, multiple
monitors, idle input; the order and the count do not depend on any risk value. -/
theorem collectResults_order (s : SystemState) :
    (collectResults s).length = 9 ∧
    collectResults s =
      [CheckRdp s, CheckRemoteTools s, CheckVirtualMachine s, CheckScreenRecorders s,
       CheckMacroTools s, CheckVpn s, CheckVirtualDisplays s, CheckMultipleMonitors s,
       CheckRemoteInputHeuristic s] ∧
    (collectResults s).map CheckResult.name =
      ["RDP (Remote Desktop Session)",
       "Remote Access Tools (AnyDesk/TeamViewer/VNC/etc.)",
       "Virtual Machine / Sandbox Environment",
       "Screen Recording / Streaming Software",
       "Macro / Automation Tools (AutoHotkey, etc.)",
       "VPN Software Running",
       "Virtual / Remote / Mirror Display Drivers",
       "Multiple Monitors Connected",
       "Suspicious Idle / Remote Input Pattern"] := by
  refine ⟨rfl, rfl, ?_⟩
  simp [collectResults, CheckRdp, CheckRemoteTools, CheckVirtualMachine, CheckScreenRecorders,
    CheckMacroTools, CheckVpn, CheckVirtualDisplays, CheckMultipleMonitors,
    CheckRemoteInputHeuristic]

/-! ## Name-list detectors -/

theorem AnyProcessRunning_result_unique {snapshot : Option (List String)}
    {names : List String} {which n m : String}
    (hn : AnyProcessRunning snapshot names which = (true, n))
    (hm : AnyProcessRunning snapshot names which = (true, m)) : n = m := by
  rw [hn] at hm
  exact (Prod.mk.inj hm).2

/-- Claim C3: when the snapshot yields a process table in which some candidate
of `names` is the name of a running process (case-insensitive exact
comparison), `AnyProcessRunning` returns true and reports the first candidate,
in list order, that has a running process; a detector built on that list
returns `risk = true` and its detail names this one candidate (in the spelling
of the candidate list, which equals the running name up to letter case) and
nothing else. -/
theorem first_match_is_reported (s : SystemState) (table names : List String)
    (which : String) (hs : s.snapshot = some table)
    (h : ∃ n ∈ names, ∃ p ∈ table, SameNameIgnoringCase p n) :
    ∃ n, FirstMatch names table n ∧
      (∀ m, FirstMatch names table m → m = n) ∧
      AnyProcessRunning s.snapshot names which = (true, n) ∧
      (names = remoteNames →
        CheckRemoteTools s =
          { name := "Remote Access Tools (AnyDesk/TeamViewer/VNC/etc.)"
            risk := true
            detail := "Detected process: " ++ n }) ∧
      (names = recNames →
        CheckScreenRecorders s =
          { name := "Screen Recording / Streaming Software"
            risk := true
            detail := "Detected process: " ++ n }) ∧
      (names = macroNames →
        CheckMacroTools s =
          { name := "Macro / Automation Tools (AutoHotkey, etc.)"
            risk := true
            detail := "Detected process: " ++ n }) ∧
      (names = vpnNames →
        CheckVpn s =
          { name := "VPN Software Running"
            risk := true
            detail := "Detected process: " ++ n }) ∧
      (names = vmNames →
        CheckVirtualMachine s =
          { name := "Virtual Machine / Sandbox Environment"
            risk := true
            detail :=
              if IsHypervisorPresent s then "Hypervisor bit set; VM process detected: " ++ n
              else "Detected VM-related process: " ++ n }) := by
  obtain ⟨n, hfirst⟩ := exists_firstMatch names table h
  have hrun : ∀ w, AnyProcessRunning s.snapshot names w = (true, n) := by
    intro w
    rw [hs]
    exact AnyProcessRunning_of_firstMatch names table n w hfirst
  refine ⟨n, hfirst, ?_, hrun which, ?_, ?_, ?_, ?_, ?_⟩
  · intro m hm
    have hm2 := AnyProcessRunning_of_firstMatch names table m which hm
    rw [← hs] at hm2
    exact AnyProcessRunning_result_unique hm2 (hrun which)
  · intro hnames
    subst hnames
    simp [CheckRemoteTools, hrun "", narrow_remoteNames n hfirst.mem]
  · intro hnames
    subst hnames
    simp [CheckScreenRecorders, hrun "", narrow_recNames n hfirst.mem]
  · intro hnames
    subst hnames
    simp [CheckMacroTools, hrun "", narrow_macroNames n hfirst.mem]
  · intro hnames
    subst hnames
    simp [CheckVpn, hrun "", narrow_vpnNames n hfirst.mem]
  · intro hnames
    subst hnames
    have hnar := narrow_vmNames n hfirst.mem
    cases hhv : IsHypervisorPresent s <;>
      simp [CheckVirtualMachine, hrun "", hhv, hnar.1, hnar.2]

/-- Instance of `first_match_is_reported`: with `TEAMVIEWER.EXE` running among
unrelated processes, the remote-tools detector reports risk and names
TeamViewer. -/
theorem first_match_is_reported_witness :
    teamViewerState.snapshot = some ["explorer.exe", "TEAMVIEWER.EXE", "chrome.exe"] ∧
    (∃ n ∈ remoteNames, ∃ p ∈ ["explorer.exe", "TEAMVIEWER.EXE", "chrome.exe"],
      SameNameIgnoringCase p n) ∧
    CheckRemoteTools teamViewerState =
      { name := "Remote Access Tools (AnyDesk/TeamViewer/VNC/etc.)"
        risk := true
        detail := "Detected process: TeamViewer.exe" } := by
  have hex : ∃ n ∈ remoteNames, ∃ p ∈ ["explorer.exe", "TEAMVIEWER.EXE", "chrome.exe"],
      SameNameIgnoringCase p n :=
    ⟨"TeamViewer.exe", by decide, "TEAMVIEWER.EXE", by decide, by decide⟩
  refine ⟨rfl, hex, ?_⟩
  obtain ⟨n, -, -, hrun, hremote, -⟩ :=
    first_match_is_reported teamViewerState _ remoteNames "" rfl hex
  have hn : n = "TeamViewer.exe" := by
    have h2 : AnyProcessRunning teamViewerState.snapshot remoteNames "" =
        (true, "TeamViewer.exe") := by decide
    exact AnyProcessRunning_result_unique hrun h2
  rw [hremote rfl, hn]
  decide

/-- Counterexample to claim C4 as stated: on a machine whose CPU reports the
hypervisor bit, with a process table holding no VM candidate,
`CheckVirtualMachine` returns `risk = true` and the flag-only detail, not
`risk = false` with the no-indicators constant. -/
theorem CheckVirtualMachine_risk_without_process :
    hypervisorOnlyState.snapshot = some ["explorer.exe"] ∧
    NoMatch vmNames ["explorer.exe"] ∧
    (CheckVirtualMachine hypervisorOnlyState).risk = true ∧
    (CheckVirtualMachine hypervisorOnlyState).detail =
      "CPU hypervisor bit is set (running inside a VM)." := by
  decide

/-- Claim C4, amended: when the process table holds none of a detector's
candidates, `CheckRemoteTools`, `CheckScreenRecorders`, `CheckMacroTools` and
`CheckVpn` return `risk = false` with one fixed detail each, whatever else is
running; `CheckVirtualMachine` returns `risk` equal to the hypervisor flag, with
the fixed no-indicators detail when the flag is clear and the fixed flag-only
detail when it is set. -/
theorem no_match_results (s : SystemState) (table : List String)
    (hs : s.snapshot = some table) :
    (NoMatch remoteNames table →
      CheckRemoteTools s =
        { name := "Remote Access Tools (AnyDesk/TeamViewer/VNC/etc.)"
          risk := false
          detail := "No known remote access processes detected." }) ∧
    (NoMatch recNames table →
      CheckScreenRecorders s =
        { name := "Screen Recording / Streaming Software"
          risk := false
          detail := "No known screen recorders detected." }) ∧
    (NoMatch macroNames table →
      CheckMacroTools s =
        { name := "Macro / Automation Tools (AutoHotkey, etc.)"
          risk := false
          detail := "No common macro tools detected." }) ∧
    (NoMatch vpnNames table →
      CheckVpn s =
        { name := "VPN Software Running"
          risk := false
          detail := "No common VPN processes detected." }) ∧
    (NoMatch vmNames table →
      CheckVirtualMachine s =
        { name := "Virtual Machine / Sandbox Environment"
          risk := IsHypervisorPresent s
          detail :=
            if IsHypervisorPresent s then "CPU hypervisor bit is set (running inside a VM)."
            else "No obvious VM indicators detected." }) := by
  refine ⟨?_, ?_, ?_, ?_, ?_⟩
  · intro h
    simp [CheckRemoteTools, hs, AnyProcessRunning_of_noMatch _ _ _ h]
  · intro h
    simp [CheckScreenRecorders, hs, AnyProcessRunning_of_noMatch _ _ _ h]
  · intro h
    simp [CheckMacroTools, hs, AnyProcessRunning_of_noMatch _ _ _ h]
  · intro h
    simp [CheckVpn, hs, AnyProcessRunning_of_noMatch _ _ _ h]
  · intro h
    cases hhv : IsHypervisorPresent s <;>
      simp [CheckVirtualMachine, hs, AnyProcessRunning_of_noMatch _ _ _ h, hhv]

/-- Instance of `no_match_results`: with only `explorer.exe` running, the
remote-tools detector is clean and the virtual-machine detector follows the
hypervisor bit. -/
theorem no_match_results_witness :
    hypervisorOnlyState.snapshot = some ["explorer.exe"] ∧
    NoMatch remoteNames ["explorer.exe"] ∧
    CheckRemoteTools hypervisorOnlyState =
      { name := "Remote Access Tools (AnyDesk/TeamViewer/VNC/etc.)"
        risk := false
        detail := "No known remote access processes detected." } :=
  ⟨rfl, by decide,
    (no_match_results hypervisorOnlyState ["explorer.exe"] rfl).1 (by decide)⟩

/-! ## The virtual-machine detector -/

theorem vmProcessRunning_iff_exists_firstMatch (s : SystemState) :
    VmProcessRunning s ↔ ∃ table n, s.snapshot = some table ∧ FirstMatch vmNames table n := by
  unfold VmProcessRunning
  cases hs : s.snapshot with
  | none => simp
  | some table =>
    constructor
    · intro h
      obtain ⟨n, hn⟩ := exists_firstMatch vmNames table h
      exact ⟨table, n, rfl, hn⟩
    · rintro ⟨table2, n, hs2, hn⟩
      obtain rfl : table = table2 := Option.some.inj hs2
      obtain ⟨_, _, _, _, hp⟩ := id hn
      exact ⟨n, hn.mem, hp⟩

theorem AnyProcessRunning_vmNames_of_not_running (s : SystemState)
    (h : ¬ VmProcessRunning s) :
    AnyProcessRunning s.snapshot vmNames "" = (false, "") := by
  unfold VmProcessRunning at h
  cases hs : s.snapshot with
  | none => exact AnyProcessRunning_snapshot_failed vmNames ""
  | some table =>
    rw [hs] at h
    apply AnyProcessRunning_of_noMatch
    intro n hn p hp hsame
    exact h ⟨n, hn, p, hp, hsame⟩

/-- The four shapes of the result of `CheckVirtualMachine`. -/
theorem CheckVirtualMachine_shape (s : SystemState) :
    (¬ VmProcessRunning s ∧
      CheckVirtualMachine s =
        { name := "Virtual Machine / Sandbox Environment"
          risk := IsHypervisorPresent s
          detail :=
            if IsHypervisorPresent s then "CPU hypervisor bit is set (running inside a VM)."
            else "No obvious VM indicators detected." }) ∨
    (VmProcessRunning s ∧ ∃ n ∈ vmNames,
      CheckVirtualMachine s =
        { name := "Virtual Machine / Sandbox Environment"
          risk := true
          detail :=
            if IsHypervisorPresent s then "Hypervisor bit set; VM process detected: " ++ n
            else "Detected VM-related process: " ++ n }) := by
  by_cases h : VmProcessRunning s
  · right
    refine ⟨h, ?_⟩
    obtain ⟨table, n, hs, hn⟩ := (vmProcessRunning_iff_exists_firstMatch s).mp h
    have hrun : AnyProcessRunning s.snapshot vmNames "" = (true, n) := by
      rw [hs]
      exact AnyProcessRunning_of_firstMatch vmNames table n "" hn
    have hnar := narrow_vmNames n hn.mem
    refine ⟨n, hn.mem, ?_⟩
    cases hhv : IsHypervisorPresent s <;>
      simp [CheckVirtualMachine, hrun, hhv, hnar.1, hnar.2]
  · left
    refine ⟨h, ?_⟩
    cases hhv : IsHypervisorPresent s <;>
      simp [CheckVirtualMachine, AnyProcessRunning_vmNames_of_not_running s h, hhv]

/-- Claim C5: `CheckVirtualMachine` reports risk exactly when the hypervisor bit
is set or a VM tooling candidate is running; its detail is one of four
messages (both, flag only, process only, none), and equal details can only come
from the same case, whatever process was matched; with the bit set and no VM
process it returns `risk = true` with the flag-only message. -/
theorem CheckVirtualMachine_policy (s : SystemState) :
    ((CheckVirtualMachine s).risk = true ↔
      (IsHypervisorPresent s = true ∨ VmProcessRunning s)) ∧
    (IsHypervisorPresent s = true → VmProcessRunning s →
      ∃ n ∈ vmNames, (CheckVirtualMachine s).detail =
        "Hypervisor bit set; VM process detected: " ++ n) ∧
    (IsHypervisorPresent s = true → ¬ VmProcessRunning s →
      (CheckVirtualMachine s).risk = true ∧
      (CheckVirtualMachine s).detail = "CPU hypervisor bit is set (running inside a VM).") ∧
    (IsHypervisorPresent s = false → VmProcessRunning s →
      ∃ n ∈ vmNames, (CheckVirtualMachine s).detail = "Detected VM-related process: " ++ n) ∧
    (IsHypervisorPresent s = false → ¬ VmProcessRunning s →
      (CheckVirtualMachine s).detail = "No obvious VM indicators detected.") ∧
    (∀ s2 : SystemState, (CheckVirtualMachine s).detail = (CheckVirtualMachine s2).detail →
      (IsHypervisorPresent s = IsHypervisorPresent s2 ∧
        (VmProcessRunning s ↔ VmProcessRunning s2))) := by
  refine ⟨?_, ?_, ?_, ?_, ?_, ?_⟩
  · rcases CheckVirtualMachine_shape s with ⟨hno, heq⟩ | ⟨hyes, n, -, heq⟩
    · rw [heq]; simp [hno]
    · rw [heq]; simp [hyes]
  · intro hhv hyes
    rcases CheckVirtualMachine_shape s with ⟨hno, -⟩ | ⟨-, n, hn, heq⟩
    · exact absurd hyes hno
    · exact ⟨n, hn, by rw [heq]; simp [hhv]⟩
  · intro hhv hno
    rcases CheckVirtualMachine_shape s with ⟨-, heq⟩ | ⟨hyes, -⟩
    · rw [heq]; simp [hhv]
    · exact absurd hyes hno
  · intro hhv hyes
    rcases CheckVirtualMachine_shape s with ⟨hno, -⟩ | ⟨-, n, hn, heq⟩
    · exact absurd hyes hno
    · exact ⟨n, hn, by rw [heq]; simp [hhv]⟩
  · intro hhv hno
    rcases CheckVirtualMachine_shape s with ⟨-, heq⟩ | ⟨hyes, -⟩
    · rw [heq]; simp [hhv]
    · exact absurd hyes hno
  · intro s2 hdet
    rcases CheckVirtualMachine_shape s with ⟨hno, heq⟩ | ⟨hyes, n, hn, heq⟩ <;>
    rcases CheckVirtualMachine_shape s2 with ⟨hno2, heq2⟩ | ⟨hyes2, m, hm, heq2⟩ <;>
    rw [heq, heq2] at hdet <;>
    cases hhv : IsHypervisorPresent s <;>
    cases hhv2 : IsHypervisorPresent s2 <;>
    simp only [hhv, hhv2, if_true, if_false, Bool.false_eq_true] at hdet <;>
    first
      | exact ⟨rfl, iff_of_true ‹_› ‹_›⟩
      | exact ⟨rfl, iff_of_false ‹_› ‹_›⟩
      | exact absurd hdet (by decide)
      | exact absurd hdet (vm_details_distinct n hn n hn).1
      | exact absurd hdet.symm (vm_details_distinct m hm m hm).1
      | exact absurd hdet (vm_details_distinct n hn m hm).2.1
      | exact absurd hdet.symm (vm_details_distinct m hm n hn).2.1
      | exact absurd hdet (vm_details_distinct n hn n hn).2.2.1
      | exact absurd hdet.symm (vm_details_distinct m hm m hm).2.2.1
      | exact absurd hdet (vm_details_distinct n hn n hn).2.2.2.1
      | exact absurd hdet.symm (vm_details_distinct m hm m hm).2.2.2.1
      | exact absurd hdet (vm_details_distinct n hn n hn).2.2.2.2
      | exact absurd hdet.symm (vm_details_distinct m hm m hm).2.2.2.2

/-- Instance of `CheckVirtualMachine_policy`: hypervisor bit set, no VM process:
risk with the flag-only message. -/
theorem CheckVirtualMachine_policy_witness :
    IsHypervisorPresent hypervisorOnlyState = true ∧
    ¬ VmProcessRunning hypervisorOnlyState ∧
    (CheckVirtualMachine hypervisorOnlyState).risk = true ∧
    (CheckVirtualMachine hypervisorOnlyState).detail =
      "CPU hypervisor bit is set (running inside a VM)." := by
  have hno : ¬ VmProcessRunning hypervisorOnlyState := by decide
  exact ⟨by decide, hno,
    (CheckVirtualMachine_policy hypervisorOnlyState).2.2.1 (by decide) hno⟩

/-! ## The idle-input heuristic -/

theorem dwordSub_eq_int_mod (a b : Nat) :
    ((dwordSub a b : Nat) : Int) = ((a : Int) - (b : Int)) % 2 ^ 32 := by
  unfold dwordSub
  omega

/-- Claim C6: with `GetLastInputInfo` reporting tick `last`, the detector
computes `elapsed = (tickCount - last) mod 2^32`, reports risk exactly when
`elapsed > 20000`, and in both outcomes returns the detail
"System idle for ~N seconds." with `N = elapsed / 1000`; so 25000 ms is a risk
with "~25 seconds", 10000 ms is no risk with "~10 seconds", and 20000 ms is no
risk. -/
theorem CheckRemoteInputHeuristic_spec (s : SystemState) (last : Nat)
    (hl : s.lastInput = some last) :
    ((idleMs s : Nat) : Int) = ((s.tickCount : Int) - (last : Int)) % 2 ^ 32 ∧
    ((CheckRemoteInputHeuristic s).risk = true ↔ 20000 < idleMs s) ∧
    (CheckRemoteInputHeuristic s).detail =
      "System idle for ~" ++ toString (idleMs s / 1000) ++ " seconds." ∧
    (idleMs s = 25000 →
      CheckRemoteInputHeuristic s =
        { name := "Suspicious Idle / Remote Input Pattern"
          risk := true
          detail := "System idle for ~25 seconds." }) ∧
    (idleMs s = 10000 →
      CheckRemoteInputHeuristic s =
        { name := "Suspicious Idle / Remote Input Pattern"
          risk := false
          detail := "System idle for ~10 seconds." }) ∧
    (idleMs s = 20000 → (CheckRemoteInputHeuristic s).risk = false) := by
  refine ⟨?_, ?_, rfl, ?_, ?_, ?_⟩
  · simp only [idleMs, lastInputTime, hl]
    exact dwordSub_eq_int_mod _ _
  · simp [CheckRemoteInputHeuristic]
  · intro h
    simp only [CheckRemoteInputHeuristic, h]
    decide
  · intro h
    simp only [CheckRemoteInputHeuristic, h]
    decide
  · intro h
    simp only [CheckRemoteInputHeuristic, h]
    decide

/-- Instance of `CheckRemoteInputHeuristic_spec`: tick 30000, last input at tick
5000, so 25000 ms idle: risk, "~25 seconds". -/
theorem CheckRemoteInputHeuristic_spec_witness :
    teamViewerState.lastInput = some 5000 ∧
    idleMs teamViewerState = 25000 ∧
    CheckRemoteInputHeuristic teamViewerState =
      { name := "Suspicious Idle / Remote Input Pattern"
        risk := true
        detail := "System idle for ~25 seconds." } :=
  ⟨rfl, by decide,
    (CheckRemoteInputHeuristic_spec teamViewerState 5000 rfl).2.2.2.1 (by decide)⟩

/-! ## Failed capability queries -/

/-- Remark on the idle detector: the result of `GetLastInputInfo` is not
inspected, so after a failed call the elapsed time is the tick count itself;
30 seconds after boot the detector reports a risk. -/
theorem CheckRemoteInputHeuristic_failed_query :
    lastInputFailedState.lastInput = none ∧
    CheckRemoteInputHeuristic lastInputFailedState =
      { name := "Suspicious Idle / Remote Input Pattern"
        risk := true
        detail := "System idle for ~30 seconds." } := by
  decide

/-- Counterexample to claim C7 as stated: when the process snapshot cannot be
taken, `CheckRemoteTools` returns the very detail it returns when the snapshot
succeeds and lists no candidate; there is no separate degraded-coverage
detail. -/
theorem CheckRemoteTools_failed_snapshot_same_detail :
    snapshotFailedState.snapshot = none ∧
    snapshotEmptyState.snapshot = some [] ∧
    (CheckRemoteTools snapshotFailedState).detail =
      (CheckRemoteTools snapshotEmptyState).detail ∧
    (CheckRemoteTools snapshotFailedState).detail =
      "No known remote access processes detected." := by
  decide

/-- Claim C7, amended: when the process snapshot cannot be taken, each of
`CheckRemoteTools`, `CheckScreenRecorders`, `CheckMacroTools` and `CheckVpn`
returns `risk = false` with the same fixed detail it returns when the snapshot
succeeds and nothing matches, and `CheckVirtualMachine` returns exactly what it
returns for a successful snapshot without a match, its risk being the
hypervisor bit alone: the failed snapshot never produces a risk. -/
theorem failed_snapshot_results (s : SystemState) :
    CheckRemoteTools { s with snapshot := none } =
      { name := "Remote Access Tools (AnyDesk/TeamViewer/VNC/etc.)"
        risk := false
        detail := "No known remote access processes detected." } ∧
    CheckScreenRecorders { s with snapshot := none } =
      { name := "Screen Recording / Streaming Software"
        risk := false
        detail := "No known screen recorders detected." } ∧
    CheckMacroTools { s with snapshot := none } =
      { name := "Macro / Automation Tools (AutoHotkey, etc.)"
        risk := false
        detail := "No common macro tools detected." } ∧
    CheckVpn { s with snapshot := none } =
      { name := "VPN Software Running"
        risk := false
        detail := "No common VPN processes detected." } ∧
    (CheckVirtualMachine { s with snapshot := none }).risk = IsHypervisorPresent s ∧
    CheckRemoteTools { s with snapshot := none } =
      CheckRemoteTools { s with snapshot := some [] } ∧
    CheckScreenRecorders { s with snapshot := none } =
      CheckScreenRecorders { s with snapshot := some [] } ∧
    CheckMacroTools { s with snapshot := none } =
      CheckMacroTools { s with snapshot := some [] } ∧
    CheckVpn { s with snapshot := none } = CheckVpn { s with snapshot := some [] } ∧
    CheckVirtualMachine { s with snapshot := none } =
      CheckVirtualMachine { s with snapshot := some [] } := by
  have hempty : ∀ names : List String, ∀ w : String,
      AnyProcessRunning (some []) names w = (false, w) := by
    intro names w
    apply AnyProcessRunning_of_noMatch
    intro n _ p hp
    simp at hp
  refine ⟨?_, ?_, ?_, ?_, ?_, ?_, ?_, ?_, ?_, ?_⟩
  · simp [CheckRemoteTools, AnyProcessRunning_snapshot_failed]
  · simp [CheckScreenRecorders, AnyProcessRunning_snapshot_failed]
  · simp [CheckMacroTools, AnyProcessRunning_snapshot_failed]
  · simp [CheckVpn, AnyProcessRunning_snapshot_failed]
  · simp [CheckVirtualMachine, AnyProcessRunning_snapshot_failed, IsHypervisorPresent]
  · simp [CheckRemoteTools, AnyProcessRunning_snapshot_failed, hempty]
  · simp [CheckScreenRecorders, AnyProcessRunning_snapshot_failed, hempty]
  · simp [CheckMacroTools, AnyProcessRunning_snapshot_failed, hempty]
  · simp [CheckVpn, AnyProcessRunning_snapshot_failed, hempty]
  · simp [CheckVirtualMachine, AnyProcessRunning_snapshot_failed, hempty, IsHypervisorPresent]

/-! ## The refresh loop -/

theorem run_exited (polls : Nat) (key : Nat → Nat) (k : Nat) (st : Sched)
    (h : st.phase = Phase.exited) : run polls key k st = st := by
  induction k with
  | zero => rfl
  | succ k ih =>
    have hstep : step polls key st = st := by simp [step, h]
    simp only [run, hstep]
    exact ih

theorem run_add (polls : Nat) (key : Nat → Nat) (j k : Nat) (st : Sched) :
    run polls key (j + k) st = run polls key k (run polls key j st) := by
  induction j generalizing st with
  | zero => simp [run]
  | succ j ih =>
    have : j + 1 + k = (j + k) + 1 := by omega
    rw [this]
    simp only [run]
    exact ih _

theorem run_of_exited_after (polls : Nat) (key : Nat → Nat) (j k : Nat) (st : Sched)
    (h : (run polls key j st).phase = Phase.exited) (hk : j ≤ k) :
    run polls key k st = run polls key j st := by
  obtain ⟨d, rfl⟩ := Nat.exists_eq_add_of_le hk
  rw [run_add]
  exact run_exited polls key d _ h

set_option maxRecDepth 20000 in
/-- Counterexample to claim C8 as stated: the master monitor is started and Q
goes down, and stays down, while control is inside the last `Sleep(100)` of the
first wait (iteration 49, instant 100). The next action is the top of
`while (true)`: a second evaluation cycle is started, and only the key test
after it returns from `main`; whenever the program has exited it has started
two cycles. -/
theorem quit_during_last_sleep_starts_cycle :
    (∀ t, t < 100 → quitRequested (qLate t) = false) ∧
    (∀ t, 100 ≤ t → quitRequested (qLate t) = true) ∧
    run masterPolls qLate 100 initialSched = lastSleepState ∧
    lastSleepState.phase = Phase.sleep 49 ∧
    lastSleepState.cycles = 1 ∧
    (run masterPolls qLate 101 initialSched).phase = Phase.cycle ∧
    (run masterPolls qLate 102 initialSched).cycles = 2 ∧
    (run masterPolls qLate 103 initialSched).phase = Phase.exited ∧
    (∀ k, (run masterPolls qLate k initialSched).phase = Phase.exited →
      (run masterPolls qLate k initialSched).cycles = 2) := by
  have hbefore : ∀ k, k < 103 →
      (run masterPolls qLate k initialSched).phase ≠ Phase.exited := by decide
  refine ⟨?_, ?_, by decide, rfl, rfl, by decide, by decide, by decide, ?_⟩
  · intro t ht
    simp [qLate, ht, quitRequested]
  · intro t ht
    simp [qLate, Nat.not_lt.mpr ht, quitRequested]
  · intro k hk
    by_cases h : 103 ≤ k
    · rw [run_of_exited_after masterPolls qLate 103 k initialSched (by decide) h]
      decide
    · exact absurd hk (hbefore k (by omega))

/-- Claim C8, amended: from an instant at which control is in the wait loop and
Q is down from then on, `main` returns at the next key test without starting
another evaluation cycle when that instant is at a key test, or inside a
`Sleep(100)` that is not the last of the loop (then exactly one sleep completes
first); when it is inside the last `Sleep(100)` the loop is over, one more
evaluation cycle runs, and `main` returns at the first key test after it. This
holds for every loop bound, in particular 50 and 10. -/
theorem quit_request_honoured (polls : Nat) (key : Nat → Nat) (st : Sched) (i : Nat)
    (hkey : ∀ t, st.clock ≤ t → quitRequested (key t) = true) :
    (st.phase = Phase.poll i →
      ∀ k, 1 ≤ k → run polls key k st =
        { phase := Phase.exited, cycles := st.cycles, sleeps := st.sleeps,
          clock := st.clock + 1 }) ∧
    (st.phase = Phase.sleep i → i + 1 < polls →
      (run polls key 1 st).phase = Phase.poll (i + 1) ∧
      (run polls key 1 st).cycles = st.cycles ∧
      ∀ k, 2 ≤ k → run polls key k st =
        { phase := Phase.exited, cycles := st.cycles, sleeps := st.sleeps + 1,
          clock := st.clock + 2 }) ∧
    (st.phase = Phase.sleep i → polls ≤ i + 1 → 0 < polls →
      (run polls key 1 st).phase = Phase.cycle ∧
      ∀ k, 3 ≤ k → run polls key k st =
        { phase := Phase.exited, cycles := st.cycles + 1, sleeps := st.sleeps + 1,
          clock := st.clock + 3 }) := by
  refine ⟨?_, ?_, ?_⟩
  · intro hp k hk
    have h1 : run polls key 1 st =
        { phase := Phase.exited, cycles := st.cycles, sleeps := st.sleeps,
          clock := st.clock + 1 } := by
      simp [run, step, hp, hkey st.clock (le_refl _)]
    rw [run_of_exited_after polls key 1 k st (by rw [h1]) hk, h1]
  · intro hp hi
    have h1 : run polls key 1 st =
        { phase := Phase.poll (i + 1), cycles := st.cycles, sleeps := st.sleeps + 1,
          clock := st.clock + 1 } := by
      simp [run, step, hp, loopTest, hi]
    have h2 : run polls key 2 st =
        { phase := Phase.exited, cycles := st.cycles, sleeps := st.sleeps + 1,
          clock := st.clock + 2 } := by
      rw [show (2 : Nat) = 1 + 1 from rfl, run_add, h1]
      simp [run, step, hkey (st.clock + 1) (Nat.le_succ _)]
    refine ⟨by rw [h1], by rw [h1], ?_⟩
    intro k hk
    rw [run_of_exited_after polls key 2 k st (by rw [h2]) hk, h2]
  · intro hp hi hpos
    have hnot : ¬ (i + 1 < polls) := by omega
    have h1 : run polls key 1 st =
        { phase := Phase.cycle, cycles := st.cycles, sleeps := st.sleeps + 1,
          clock := st.clock + 1 } := by
      simp [run, step, hp, loopTest, hnot]
    have h2 : run polls key 2 st =
        { phase := Phase.poll 0, cycles := st.cycles + 1, sleeps := st.sleeps + 1,
          clock := st.clock + 2 } := by
      rw [show (2 : Nat) = 1 + 1 from rfl, run_add, h1]
      simp [run, step, loopTest, hpos]
    have h3 : run polls key 3 st =
        { phase := Phase.exited, cycles := st.cycles + 1, sleeps := st.sleeps + 1,
          clock := st.clock + 3 } := by
      rw [show (3 : Nat) = 2 + 1 from rfl, run_add, h2]
      simp [run, step, hkey (st.clock + 2) (by omega)]
    refine ⟨by rw [h1], ?_⟩
    intro k hk
    rw [run_of_exited_after polls key 3 k st (by rw [h3]) hk, h3]

/-- Instance of `quit_request_honoured`: Q goes down while a monitor is in the
fourth `Sleep(100)` of a wait; with the loop bound of either program `main`
returns two actions later, after that one sleep, with no new cycle. -/
theorem quit_request_honoured_witness :
    (∀ t, midSleepState.clock ≤ t → quitRequested (qHeld t) = true) ∧
    midSleepState.phase = Phase.sleep 3 ∧
    3 + 1 < masterPolls ∧
    3 + 1 < capturePolls ∧
    run masterPolls qHeld 2 midSleepState =
      { phase := Phase.exited, cycles := midSleepState.cycles,
        sleeps := midSleepState.sleeps + 1, clock := midSleepState.clock + 2 } ∧
    run capturePolls qHeld 2 midSleepState =
      { phase := Phase.exited, cycles := midSleepState.cycles,
        sleeps := midSleepState.sleeps + 1, clock := midSleepState.clock + 2 } :=
  ⟨fun _ _ => by simp [qHeld, quitRequested], rfl, by decide, by decide,
    ((quit_request_honoured masterPolls qHeld midSleepState 3
      (fun _ _ => by simp [qHeld, quitRequested])).2.1 rfl (by decide)).2.2 2 (le_refl _),
    ((quit_request_honoured capturePolls qHeld midSleepState 3
      (fun _ _ => by simp [qHeld, quitRequested])).2.1 rfl (by decide)).2.2 2 (le_refl _)⟩

/-! ## The output-duplication probe -/

/-- Claim C9, evaluated at an input where the code departs from it: the factory,
the adapter and the device are obtained, `EnumOutputs` stores no output, and
the call `output->QueryInterface` goes through a null pointer instead of the
probe returning `false`. -/
theorem IsWindowBeingCaptured_null_output :
    FAILED noOutputQueries.createFactory = false ∧
    noOutputQueries.enumAdapters = true ∧
    FAILED noOutputQueries.createDevice = false ∧
    noOutputQueries.enumOutputs = false ∧
    (IsWindowBeingCaptured noOutputQueries []).1 = ProbeExit.nullDereference := by
  decide

/-- Counterexample to claim C10 as stated: when every graphics call succeeds,
the process holds seven more COM references after the probe than before it. -/
theorem IsWindowBeingCaptured_keeps_references :
    IsWindowBeingCaptured allSucceedQueries [] =
      (ProbeExit.returned false,
        [Resource.factory, Resource.adapter, Resource.device, Resource.context,
         Resource.output, Resource.output1, Resource.duplication]) ∧
    (IsWindowBeingCaptured allSucceedQueries []).2 ≠ [] := by
  decide

theorem IsWindowBeingCaptured_held_eq (q : GraphicsQueries) (held : List Resource) :
    (IsWindowBeingCaptured q held).2 = held ++ acquiredObjects q := by
  cases hf : FAILED q.createFactory <;> cases ha : q.enumAdapters <;>
    cases hd : FAILED q.createDevice <;> cases ho : q.enumOutputs <;>
    cases h1 : q.queryInterface <;> cases hdup : FAILED q.duplicateOutput <;>
    by_cases hacc : q.duplicateOutput % 4294967296 = DXGI_ERROR_ACCESS_DENIED <;>
    simp [IsWindowBeingCaptured, acquiredObjects, hf, ha, hd, ho, h1, hdup, hacc]

theorem acquiredObjects_mem (q : GraphicsQueries) :
    (acquiredObjects q = [] ↔ FAILED q.createFactory = true) ∧
    (Resource.factory ∈ acquiredObjects q ↔ FAILED q.createFactory = false) ∧
    (Resource.adapter ∈ acquiredObjects q ↔
      (FAILED q.createFactory = false ∧ q.enumAdapters = true)) ∧
    (Resource.device ∈ acquiredObjects q ↔
      (FAILED q.createFactory = false ∧ FAILED q.createDevice = false)) ∧
    (Resource.context ∈ acquiredObjects q ↔
      (FAILED q.createFactory = false ∧ FAILED q.createDevice = false)) ∧
    (Resource.output ∈ acquiredObjects q ↔
      (FAILED q.createFactory = false ∧ FAILED q.createDevice = false ∧
        q.enumAdapters = true ∧ q.enumOutputs = true)) ∧
    (Resource.output1 ∈ acquiredObjects q ↔
      (FAILED q.createFactory = false ∧ FAILED q.createDevice = false ∧
        q.enumAdapters = true ∧ q.enumOutputs = true ∧ q.queryInterface = true)) ∧
    (Resource.duplication ∈ acquiredObjects q ↔
      (FAILED q.createFactory = false ∧ FAILED q.createDevice = false ∧
        q.enumAdapters = true ∧ q.enumOutputs = true ∧ q.queryInterface = true ∧
        FAILED q.duplicateOutput = false)) := by
  cases hf : FAILED q.createFactory <;> cases ha : q.enumAdapters <;>
    cases hd : FAILED q.createDevice <;> cases ho : q.enumOutputs <;>
    cases h1 : q.queryInterface <;> cases hdup : FAILED q.duplicateOutput <;>
    simp [acquiredObjects, hf, ha, hd, ho, h1, hdup]

/-- Claim C10, amended: for every outcome of the graphics calls, the references
held when the probe ends are exactly those held before the call followed by
every object obtained during the probe (factory, adapter, device, context,
output, `IDXGIOutput1`, duplication: each one whose creating call is reached and
stores it); nothing is released on any path. The held set is unchanged exactly
when `CreateDXGIFactory1` fails. -/
theorem IsWindowBeingCaptured_held (q : GraphicsQueries) (held : List Resource) :
    (IsWindowBeingCaptured q held).2 = held ++ acquiredObjects q ∧
    (acquiredObjects q = [] ↔ FAILED q.createFactory = true) ∧
    ((IsWindowBeingCaptured q held).2 = held ↔ FAILED q.createFactory = true) ∧
    (∀ r, r ∈ held → r ∈ (IsWindowBeingCaptured q held).2) ∧
    (Resource.factory ∈ acquiredObjects q ↔ FAILED q.createFactory = false) ∧
    (Resource.adapter ∈ acquiredObjects q ↔
      (FAILED q.createFactory = false ∧ q.enumAdapters = true)) ∧
    (Resource.device ∈ acquiredObjects q ↔
      (FAILED q.createFactory = false ∧ FAILED q.createDevice = false)) ∧
    (Resource.context ∈ acquiredObjects q ↔
      (FAILED q.createFactory = false ∧ FAILED q.createDevice = false)) ∧
    (Resource.output ∈ acquiredObjects q ↔
      (FAILED q.createFactory = false ∧ FAILED q.createDevice = false ∧
        q.enumAdapters = true ∧ q.enumOutputs = true)) ∧
    (Resource.output1 ∈ acquiredObjects q ↔
      (FAILED q.createFactory = false ∧ FAILED q.createDevice = false ∧
        q.enumAdapters = true ∧ q.enumOutputs = true ∧ q.queryInterface = true)) ∧
    (Resource.duplication ∈ acquiredObjects q ↔
      (FAILED q.createFactory = false ∧ FAILED q.createDevice = false ∧
        q.enumAdapters = true ∧ q.enumOutputs = true ∧ q.queryInterface = true ∧
        FAILED q.duplicateOutput = false)) := by
  have heq := IsWindowBeingCaptured_held_eq q held
  obtain ⟨hnil, hmem⟩ := acquiredObjects_mem q
  refine ⟨heq, hnil, ?_, ?_, hmem⟩
  · rw [heq, ← hnil]
    simp
  · intro r hr
    rw [heq]
    exact List.mem_append_left _ hr

/-- Instance of `IsWindowBeingCaptured_held`: with every call succeeding, the
seven objects are held after the probe on top of the reference held before;
with the access-denied outcome the six objects obtained before the duplication
attempt stay held. -/
theorem IsWindowBeingCaptured_held_witness :
    (IsWindowBeingCaptured allSucceedQueries [Resource.factory]).2 =
      [Resource.factory] ++
        [Resource.factory, Resource.adapter, Resource.device, Resource.context,
         Resource.output, Resource.output1, Resource.duplication] ∧
    IsWindowBeingCaptured accessDeniedQueries [] =
      (ProbeExit.returned true,
        [Resource.factory, Resource.adapter, Resource.device, Resource.context,
         Resource.output, Resource.output1]) := by
  refine ⟨?_, ?_⟩
  · rw [(IsWindowBeingCaptured_held allSucceedQueries [Resource.factory]).1]
    decide
  · have h := (IsWindowBeingCaptured_held accessDeniedQueries []).1
    have h1 : (IsWindowBeingCaptured accessDeniedQueries []).1 = ProbeExit.returned true := by
      decide
    have h2 : ([] : List Resource) ++ acquiredObjects accessDeniedQueries =
        [Resource.factory, Resource.adapter, Resource.device, Resource.context,
         Resource.output, Resource.output1] := by decide
    exact Prod.ext h1 (h.trans h2)

end Monitor
